import Mathlib

/-
Verification development for the DCA shock bot simulation engine
(src/index.js).  JavaScript numbers are modelled as real numbers and
Math.pow as Real.rpow; the period loop is modelled as explicit state
passing.  The source file contains two snapshots of the engine: the
current one (frequency-aware, with milestones and inflation adjustment)
and an older weekly-only one; both are embedded below.
-/

set_option maxRecDepth 8000

namespace DCA

section
attribute [local instance] Classical.propDecidable

/-- A raw JavaScript field value as the bot layer supplies it: a finite
number, the JS value null, or a value whose Number conversion is not a
finite number (NaN or undefined). -/
inductive JVal where
  | jnull : JVal
  | jnum (x : ℝ) : JVal
  | jnonfinite : JVal

/-- Whether a JS value is null (the strict comparison v !== null used on
the shock fields, negated). -/
def JVal.isNull : JVal → Bool
  | .jnull => true
  | _ => false

/-- toNum from src/index.js lines 179-182: Number(x) when that is finite,
the fallback otherwise.  Number(null) is 0, hence jnull maps to 0. -/
def toNum : JVal → ℝ → ℝ
  | .jnull, _ => 0
  | .jnum x, _ => x
  | .jnonfinite, fb => fb

/-- clamp from src/index.js lines 191-193: Math.min(max, Math.max(min, value)). -/
def clamp (value lo hi : ℝ) : ℝ := min hi (max lo value)

/-- weeklyRateFromAnnual from src/index.js lines 204-208. -/
noncomputable def weeklyRateFromAnnual (annualPct : ℝ) : ℝ :=
  if annualPct / 100 ≤ -1 then -1
  else (1 + annualPct / 100) ^ ((1 : ℝ) / 52) - 1

/-- weeklyFeeFactorFromAnnual from src/index.js lines 215-220. -/
noncomputable def weeklyFeeFactorFromAnnual (feePct : ℝ) : ℝ :=
  if feePct / 100 ≤ 0 then 1
  else if 1 ≤ feePct / 100 then 0
  else (1 - feePct / 100) ^ ((1 : ℝ) / 52)

/-- A raw parameter bundle handed to clampParams.  A field that is none
is absent from the JS object, so the spread of DEFAULTS supplies it. -/
structure RawParams where
  weeklyAmount : Option JVal := none
  years : Option JVal := none
  annualReturnPct : Option JVal := none
  annualFeePct : Option JVal := none
  shockPct : Option JVal := none
  shockYear : Option JVal := none
  frequency : Option String := none
  inflationPct : Option JVal := none

/-- The clamped parameter object produced by clampParams (first snapshot,
src/index.js lines 227-245).  inflationPct is carried over from the merge
with DEFAULTS without further processing, so it keeps type JVal. -/
structure CParams where
  weeklyAmount : ℝ
  years : ℝ
  annualReturnPct : ℝ
  annualFeePct : ℝ
  shockPct : Option ℝ
  shockYear : Option ℝ
  frequency : String
  inflationPct : JVal

/-- clampParams from src/index.js lines 227-245 (first snapshot), with the
DEFAULTS object of lines 76-85 and the LIMITS table of lines 87-94 inlined. -/
def clampParams (p : RawParams) : CParams :=
  let years := clamp (toNum (p.years.getD (.jnum 10)) 10) 0 50
  let mergedShockPct := p.shockPct.getD .jnull
  let mergedShockYear := p.shockYear.getD .jnull
  let shockOn := !mergedShockPct.isNull && !mergedShockYear.isNull
  { weeklyAmount := clamp (toNum (p.weeklyAmount.getD (.jnum 100)) 100) 0 1000000
    years := years
    annualReturnPct := clamp (toNum (p.annualReturnPct.getD (.jnum 7)) 7) (-100) 200
    annualFeePct := clamp (toNum (p.annualFeePct.getD (.jnum 0)) 0) 0 5
    shockPct := if shockOn then some (clamp (toNum mergedShockPct (-30)) (-95) 0) else none
    shockYear := if shockOn then some (clamp (toNum mergedShockYear 3) 0 years) else none
    frequency := p.frequency.getD "weekly"
    inflationPct := p.inflationPct.getD (.jnum 3) }

/-- periodsPerYear from src/index.js line 282. -/
def periodsPerYearOf (p : CParams) : ℕ :=
  if p.frequency = "monthly" then 12 else 52

/-- totalPeriods from src/index.js line 283: Math.max(0, Math.floor(years * ppy)). -/
noncomputable def totalPeriodsOf (p : CParams) : ℕ :=
  (max 0 ⌊p.years * (periodsPerYearOf p : ℝ)⌋).toNat

/-- rPeriod from src/index.js lines 285-287. -/
noncomputable def periodRate (p : CParams) : ℝ :=
  if p.frequency = "monthly" then (1 + p.annualReturnPct / 100) ^ ((1 : ℝ) / 12) - 1
  else weeklyRateFromAnnual p.annualReturnPct

/-- feeFactor from src/index.js lines 288-290. -/
noncomputable def periodFeeFactor (p : CParams) : ℝ :=
  if p.frequency = "monthly" then (1 - p.annualFeePct / 100) ^ ((1 : ℝ) / 12)
  else weeklyFeeFactorFromAnnual p.annualFeePct

/-- The shock setup of src/index.js lines 301-304: when both shock fields
are non-null, the shock period Math.min(totalPeriods, Math.max(1,
Math.floor(shockYear) * periodsPerYear)) paired with the shock percentage. -/
noncomputable def shockSpec (p : CParams) : Option (ℕ × ℝ) :=
  match p.shockPct, p.shockYear with
  | some sp, some sy =>
      some ((min (totalPeriodsOf p : ℤ) (max 1 (⌊sy⌋ * (periodsPerYearOf p : ℤ)))).toNat, sp)
  | _, _ => none

/-- Whether the shock fires at the given period (the comparison
shockPeriod !== null && period === shockPeriod of line 318). -/
def shockHit (shock : Option (ℕ × ℝ)) (period : ℕ) : Bool :=
  match shock with
  | some (T, _) => T == period
  | none => false

/-- The shock percentage, 0 when no shock is configured (only ever read
when the shock fires). -/
def shockPctOf (shock : Option (ℕ × ℝ)) : ℝ :=
  match shock with
  | some (_, sp) => sp
  | none => 0

/-- The mutable loop state of simulateDCA, src/index.js lines 292-309. -/
structure Dyn where
  portfolio : ℝ
  contributed : ℝ
  peak : ℝ
  maxDrawdown : ℝ
  preShockPeak : Option ℝ
  recoveryPeriods : Option ℕ
  shockApplied : Bool
  afterShockCounter : ℕ
  series : List ℝ
  milestones : List (ℕ × ℝ)

/-- The state before the first period. -/
def Dyn.init : Dyn := ⟨0, 0, 0, 0, none, none, false, 0, [], []⟩

/-- One iteration of the period loop, src/index.js lines 311-344, for the
first (current) snapshot of simulateDCA. -/
noncomputable def step (A r fF : ℝ) (shock : Option (ℕ × ℝ)) (ppy : ℕ)
    (period : ℕ) (s : Dyn) : Dyn :=
  let portfolio1 := s.portfolio + A
  let contributed1 := s.contributed + A
  let portfolio2 := portfolio1 * (1 + r)
  let portfolio3 := if fF < 1 then portfolio2 * fF else portfolio2
  let hit := shockHit shock period
  let preShockPeak1 := if hit then some (if 0 < s.peak then s.peak else portfolio3)
    else s.preShockPeak
  let portfolio4 := if hit then portfolio3 * (1 + shockPctOf shock / 100) else portfolio3
  let shockApplied1 := s.shockApplied || hit
  let counter0 := if hit then 0 else s.afterShockCounter
  let peak1 := if s.peak < portfolio4 then portfolio4 else s.peak
  let maxDrawdown1 :=
    if 0 < peak1 then
      if (portfolio4 - peak1) / peak1 < s.maxDrawdown then (portfolio4 - peak1) / peak1
      else s.maxDrawdown
    else s.maxDrawdown
  let inRecovery : Prop :=
    shockApplied1 = true ∧ s.recoveryPeriods = none ∧ preShockPeak1.isSome = true
  let counter1 := if inRecovery then counter0 + 1 else counter0
  let recovery1 :=
    if inRecovery then
      if preShockPeak1.getD 0 ≤ portfolio4 then some counter1 else s.recoveryPeriods
    else s.recoveryPeriods
  let year := period / ppy
  let milestones1 :=
    if period = year * ppy ∧ 0 < year then s.milestones ++ [(year, portfolio4)]
    else s.milestones
  ⟨portfolio4, contributed1, peak1, maxDrawdown1, preShockPeak1, recovery1,
    shockApplied1, counter1, s.series ++ [portfolio4], milestones1⟩

/-- Run the period loop for periods 1..n. -/
noncomputable def iterSim (A r fF : ℝ) (shock : Option (ℕ × ℝ)) (ppy : ℕ) : ℕ → Dyn
  | 0 => Dyn.init
  | n + 1 => step A r fF shock ppy (n + 1) (iterSim A r fF shock ppy n)

/-- The JS expression p.inflationPct || 3 of src/index.js line 352 on the
modelled value domain (numbers, null, NaN/undefined): falsy values, that
is null, 0 and non-finite values, give 3. -/
noncomputable def jsOr3 : JVal → ℝ
  | .jnum x => if x = 0 then 3 else x
  | _ => 3

/-- The object returned by simulateDCA (first snapshot), src/index.js
lines 360-370.  milestones is kept as the ordered list of assignments
into the milestones object; the final assignment of line 348 keys the
value by p.years, which may be fractional, so keys are reals. -/
structure SimResult where
  contributed : ℝ
  finalValue : ℝ
  gains : ℝ
  maxDrawdownPct : ℝ
  recoveryWeeks : Option ℕ
  series : List ℝ
  milestones : List (ℝ × ℝ)
  inflationAdjusted : ℝ

/-- The projection engine: the body of simulateDCA (first snapshot) after
clampParams, src/index.js lines 281-370. -/
noncomputable def project (p : CParams) : SimResult :=
  let st := iterSim p.weeklyAmount (periodRate p) (periodFeeFactor p) (shockSpec p)
    (periodsPerYearOf p) (totalPeriodsOf p)
  { contributed := st.contributed
    finalValue := st.portfolio
    gains := st.portfolio - st.contributed
    maxDrawdownPct := st.maxDrawdown * 100
    recoveryWeeks := st.recoveryPeriods.map
      (fun n => if p.frequency = "monthly" then n * 4 else n)
    series := st.series
    milestones :=
      (st.milestones.map (fun m => ((m.1 : ℝ), m.2))) ++
        (if 0 < p.years then [(p.years, st.portfolio)] else [])
    inflationAdjusted := st.portfolio / (1 + jsOr3 p.inflationPct / 100) ^ p.years }

/-- The full first-snapshot simulateDCA pipeline, src/index.js line 277:
clampParams then the period loop. -/
noncomputable def simulateDCA (raw : RawParams) : SimResult :=
  project (clampParams raw)

/-- The clamped parameter object of the second snapshot (src/index.js
lines 2004-2022); its DEFAULTS object (lines 1856-1863) has no frequency
and no inflationPct field. -/
structure CParams2 where
  weeklyAmount : ℝ
  years : ℝ
  annualReturnPct : ℝ
  annualFeePct : ℝ
  shockPct : Option ℝ
  shockYear : Option ℝ

/-- clampParams of the second snapshot, src/index.js lines 2004-2022.
The numeric treatment is identical to the first snapshot. -/
def clampParams2 (p : RawParams) : CParams2 :=
  let years := clamp (toNum (p.years.getD (.jnum 10)) 10) 0 50
  let mergedShockPct := p.shockPct.getD .jnull
  let mergedShockYear := p.shockYear.getD .jnull
  let shockOn := !mergedShockPct.isNull && !mergedShockYear.isNull
  { weeklyAmount := clamp (toNum (p.weeklyAmount.getD (.jnum 100)) 100) 0 1000000
    years := years
    annualReturnPct := clamp (toNum (p.annualReturnPct.getD (.jnum 7)) 7) (-100) 200
    annualFeePct := clamp (toNum (p.annualFeePct.getD (.jnum 0)) 0) 0 5
    shockPct := if shockOn then some (clamp (toNum mergedShockPct (-30)) (-95) 0) else none
    shockYear := if shockOn then some (clamp (toNum mergedShockYear 3) 0 years) else none }

/-- The loop state of the second-snapshot simulateDCA, src/index.js
lines 2057-2073 (no milestones). -/
structure Dyn2 where
  portfolio : ℝ
  contributed : ℝ
  peak : ℝ
  maxDrawdown : ℝ
  preShockPeak : Option ℝ
  recoveryWeeks : Option ℕ
  shockApplied : Bool
  afterShockCounter : ℕ
  series : List ℝ

/-- Initial state of the second-snapshot loop. -/
def Dyn2.init : Dyn2 := ⟨0, 0, 0, 0, none, none, false, 0, []⟩

/-- One iteration of the week loop of the second snapshot, src/index.js
lines 2075-2102.  The fee factor is applied unconditionally (line 2080). -/
noncomputable def step2 (A r fF : ℝ) (shock : Option (ℕ × ℝ)) (week : ℕ) (s : Dyn2) : Dyn2 :=
  let portfolio2 := (s.portfolio + A) * (1 + r)
  let portfolio3 := portfolio2 * fF
  let hit := shockHit shock week
  let preShockPeak1 := if hit then some (if 0 < s.peak then s.peak else portfolio3)
    else s.preShockPeak
  let portfolio4 := if hit then portfolio3 * (1 + shockPctOf shock / 100) else portfolio3
  let shockApplied1 := s.shockApplied || hit
  let counter0 := if hit then 0 else s.afterShockCounter
  let peak1 := if s.peak < portfolio4 then portfolio4 else s.peak
  let maxDrawdown1 :=
    if 0 < peak1 then
      if (portfolio4 - peak1) / peak1 < s.maxDrawdown then (portfolio4 - peak1) / peak1
      else s.maxDrawdown
    else s.maxDrawdown
  let inRecovery : Prop :=
    shockApplied1 = true ∧ s.recoveryWeeks = none ∧ preShockPeak1.isSome = true
  let counter1 := if inRecovery then counter0 + 1 else counter0
  let recovery1 :=
    if inRecovery then
      if preShockPeak1.getD 0 ≤ portfolio4 then some counter1 else s.recoveryWeeks
    else s.recoveryWeeks
  ⟨portfolio4, s.contributed + A, peak1, maxDrawdown1, preShockPeak1, recovery1,
    shockApplied1, counter1, s.series ++ [portfolio4]⟩

/-- Run the second-snapshot week loop for weeks 1..n. -/
noncomputable def iterSim2 (A r fF : ℝ) (shock : Option (ℕ × ℝ)) : ℕ → Dyn2
  | 0 => Dyn2.init
  | n + 1 => step2 A r fF shock (n + 1) (iterSim2 A r fF shock n)

/-- The object returned by the second-snapshot simulateDCA, src/index.js
lines 2104-2112. -/
structure SimResult2 where
  contributed : ℝ
  finalValue : ℝ
  gains : ℝ
  maxDrawdownPct : ℝ
  recoveryWeeks : Option ℕ
  series : List ℝ

/-- weeks from src/index.js line 2053: Math.max(0, Math.floor(years * 52)). -/
noncomputable def totalWeeksOf (p : CParams2) : ℕ :=
  (max 0 ⌊p.years * (52 : ℝ)⌋).toNat

/-- The shock setup of src/index.js lines 2065-2068 (second snapshot). -/
noncomputable def shockSpec2 (p : CParams2) : Option (ℕ × ℝ) :=
  match p.shockPct, p.shockYear with
  | some sp, some sy => some ((min (totalWeeksOf p : ℤ) (max 1 (⌊sy⌋ * 52))).toNat, sp)
  | _, _ => none

/-- The second-snapshot simulateDCA pipeline, src/index.js lines 2050-2113:
always weekly, 52 periods per year, unconditional fee multiplication. -/
noncomputable def simulateDCA2 (raw : RawParams) : SimResult2 :=
  let p := clampParams2 raw
  let st := iterSim2 p.weeklyAmount (weeklyRateFromAnnual p.annualReturnPct)
    (weeklyFeeFactorFromAnnual p.annualFeePct) (shockSpec2 p) (totalWeeksOf p)
  { contributed := st.contributed
    finalValue := st.portfolio
    gains := st.portfolio - st.contributed
    maxDrawdownPct := st.maxDrawdown * 100
    recoveryWeeks := st.recoveryWeeks
    series := st.series }

/-- The spec (section 3) range invariants that clampParams establishes on
its numeric output fields: a normalized configuration. -/
def Normalized (c : CParams) : Prop :=
  0 ≤ c.weeklyAmount ∧ c.weeklyAmount ≤ 1000000 ∧
  0 ≤ c.years ∧ c.years ≤ 50 ∧
  -100 ≤ c.annualReturnPct ∧ c.annualReturnPct ≤ 200 ∧
  0 ≤ c.annualFeePct ∧ c.annualFeePct ≤ 5 ∧
  (∀ sp ∈ c.shockPct, -95 ≤ sp ∧ sp ≤ 0) ∧
  (∀ sy ∈ c.shockYear, 0 ≤ sy ∧ sy ≤ c.years) ∧
  (c.shockPct = none ↔ c.shockYear = none)

/-- Closed form of the running portfolio value after each period: the
value at the end of period k+1 is (value + contribution) times growth,
times the fee factor when it is below 1, times the shock factor exactly
when the shock fires at that period. -/
noncomputable def valSeq (A r fF : ℝ) (shock : Option (ℕ × ℝ)) : ℕ → ℝ
  | 0 => 0
  | k + 1 =>
      (valSeq A r fF shock k + A) * (1 + r) * (if fF < 1 then fF else 1) *
        (if shockHit shock (k + 1) then 1 + shockPctOf shock / 100 else 1)

/-- Closed form of the running peak: the maximum portfolio value seen so
far (0 before any period has run). -/
noncomputable def peakSeq (A r fF : ℝ) (shock : Option (ℕ × ℝ)) : ℕ → ℝ
  | 0 => 0
  | n + 1 =>
      if peakSeq A r fF shock n < valSeq A r fF shock (n + 1) then valSeq A r fF shock (n + 1)
      else peakSeq A r fF shock n

/-- The recovery target recorded when the shock fires at period T
(src/index.js line 319): the running peak just before period T when that
peak is positive, otherwise the post-fee pre-shock value of period T. -/
noncomputable def preShockTarget (A r fF : ℝ) (shock : Option (ℕ × ℝ)) (T : ℕ) : ℝ :=
  if 0 < peakSeq A r fF shock (T - 1) then peakSeq A r fF shock (T - 1)
  else (valSeq A r fF shock (T - 1) + A) * (1 + r) * (if fF < 1 then fF else 1)

/-- The portfolio update of one period, read off the loop body. -/
lemma step_portfolio (A r fF : ℝ) (shock : Option (ℕ × ℝ)) (ppy period : ℕ) (s : Dyn) :
    (step A r fF shock ppy period s).portfolio =
      (s.portfolio + A) * (1 + r) * (if fF < 1 then fF else 1) *
        (if shockHit shock period then 1 + shockPctOf shock / 100 else 1) := by
  simp only [step]
  split_ifs <;> ring

/-- The contribution update of one period. -/
lemma step_contributed (A r fF : ℝ) (shock : Option (ℕ × ℝ)) (ppy period : ℕ) (s : Dyn) :
    (step A r fF shock ppy period s).contributed = s.contributed + A := rfl

/-- The series update of one period: the new value is appended. -/
lemma step_series (A r fF : ℝ) (shock : Option (ℕ × ℝ)) (ppy period : ℕ) (s : Dyn) :
    (step A r fF shock ppy period s).series =
      s.series ++ [(step A r fF shock ppy period s).portfolio] := rfl

/-- The peak update of one period, in terms of the new portfolio value. -/
lemma step_peak (A r fF : ℝ) (shock : Option (ℕ × ℝ)) (ppy period : ℕ) (s : Dyn) :
    (step A r fF shock ppy period s).peak =
      if s.peak < (step A r fF shock ppy period s).portfolio
      then (step A r fF shock ppy period s).portfolio else s.peak := rfl

/-- The running portfolio value of the loop equals the closed form valSeq. -/
lemma iterSim_portfolio (A r fF : ℝ) (shock : Option (ℕ × ℝ)) (ppy n : ℕ) :
    (iterSim A r fF shock ppy n).portfolio = valSeq A r fF shock n := by
  induction n with
  | zero => rfl
  | succ n ih => rw [iterSim, step_portfolio, ih]; rfl

/-- The cumulative contributions after n periods equal A times n. -/
lemma iterSim_contributed (A r fF : ℝ) (shock : Option (ℕ × ℝ)) (ppy n : ℕ) :
    (iterSim A r fF shock ppy n).contributed = A * n := by
  induction n with
  | zero => simp [iterSim, Dyn.init]
  | succ n ih => rw [iterSim, step_contributed, ih]; push_cast; ring

/-- The series after n periods lists the closed-form values of periods 1..n. -/
lemma iterSim_series (A r fF : ℝ) (shock : Option (ℕ × ℝ)) (ppy n : ℕ) :
    (iterSim A r fF shock ppy n).series =
      (List.range n).map (fun k => valSeq A r fF shock (k + 1)) := by
  induction n with
  | zero => rfl
  | succ n ih =>
      rw [iterSim, step_series, ih]
      rw [show (step A r fF shock ppy (n + 1) (iterSim A r fF shock ppy n)).portfolio =
        valSeq A r fF shock (n + 1) from by
          rw [← iterSim, iterSim_portfolio]]
      rw [List.range_succ, List.map_append]
      simp

/-- The running peak of the loop equals the closed form peakSeq. -/
lemma iterSim_peak (A r fF : ℝ) (shock : Option (ℕ × ℝ)) (ppy n : ℕ) :
    (iterSim A r fF shock ppy n).peak = peakSeq A r fF shock n := by
  induction n with
  | zero => rfl
  | succ n ih =>
      rw [iterSim, step_peak]
      rw [show (step A r fF shock ppy (n + 1) (iterSim A r fF shock ppy n)).portfolio =
        valSeq A r fF shock (n + 1) from by
          rw [← iterSim, iterSim_portfolio]]
      rw [ih]; rfl

/-- With no shock configured, the shock and recovery state never activates. -/
lemma iterSim_noShock (A r fF : ℝ) (ppy n : ℕ) :
    (iterSim A r fF none ppy n).preShockPeak = none ∧
    (iterSim A r fF none ppy n).shockApplied = false ∧
    (iterSim A r fF none ppy n).recoveryPeriods = none := by
  induction n with
  | zero => exact ⟨rfl, rfl, rfl⟩
  | succ n ih =>
      obtain ⟨h1, h2, h3⟩ := ih
      rw [iterSim]
      simp only [step, shockHit]
      simp [h1, h2, h3]

/-- The post-fee, pre-shock value produced by one period from state s:
(value + contribution) times growth, times the fee factor when below 1. -/
noncomputable def grossVal (A r fF : ℝ) (s : Dyn) : ℝ :=
  if fF < 1 then (s.portfolio + A) * (1 + r) * fF else (s.portfolio + A) * (1 + r)

/-- Definitional reading of the portfolio component of step. -/
lemma step_portfolio_def (A r fF : ℝ) (shock : Option (ℕ × ℝ)) (ppy period : ℕ) (s : Dyn) :
    (step A r fF shock ppy period s).portfolio =
      if shockHit shock period then grossVal A r fF s * (1 + shockPctOf shock / 100)
      else grossVal A r fF s := rfl

/-- Definitional reading of the preShockPeak component of step. -/
lemma step_preShockPeak_def (A r fF : ℝ) (shock : Option (ℕ × ℝ)) (ppy period : ℕ) (s : Dyn) :
    (step A r fF shock ppy period s).preShockPeak =
      if shockHit shock period then some (if 0 < s.peak then s.peak else grossVal A r fF s)
      else s.preShockPeak := rfl

/-- Definitional reading of the shockApplied component of step. -/
lemma step_shockApplied_def (A r fF : ℝ) (shock : Option (ℕ × ℝ)) (ppy period : ℕ) (s : Dyn) :
    (step A r fF shock ppy period s).shockApplied =
      (s.shockApplied || shockHit shock period) := rfl

/-- Definitional reading of the afterShockCounter component of step. -/
lemma step_counter_def (A r fF : ℝ) (shock : Option (ℕ × ℝ)) (ppy period : ℕ) (s : Dyn) :
    (step A r fF shock ppy period s).afterShockCounter =
      if ((s.shockApplied || shockHit shock period) = true ∧ s.recoveryPeriods = none ∧
          (if shockHit shock period
            then some (if 0 < s.peak then s.peak else grossVal A r fF s)
            else s.preShockPeak).isSome = true)
      then (if shockHit shock period then 0 else s.afterShockCounter) + 1
      else (if shockHit shock period then 0 else s.afterShockCounter) := rfl

/-- Definitional reading of the recoveryPeriods component of step. -/
lemma step_recovery_def (A r fF : ℝ) (shock : Option (ℕ × ℝ)) (ppy period : ℕ) (s : Dyn) :
    (step A r fF shock ppy period s).recoveryPeriods =
      if ((s.shockApplied || shockHit shock period) = true ∧ s.recoveryPeriods = none ∧
          (if shockHit shock period
            then some (if 0 < s.peak then s.peak else grossVal A r fF s)
            else s.preShockPeak).isSome = true)
      then
        (if (if shockHit shock period
              then some (if 0 < s.peak then s.peak else grossVal A r fF s)
              else s.preShockPeak).getD 0 ≤
            (if shockHit shock period then grossVal A r fF s * (1 + shockPctOf shock / 100)
             else grossVal A r fF s)
         then some
            (if ((s.shockApplied || shockHit shock period) = true ∧ s.recoveryPeriods = none ∧
                (if shockHit shock period
                  then some (if 0 < s.peak then s.peak else grossVal A r fF s)
                  else s.preShockPeak).isSome = true)
             then (if shockHit shock period then 0 else s.afterShockCounter) + 1
             else (if shockHit shock period then 0 else s.afterShockCounter))
         else s.recoveryPeriods)
      else s.recoveryPeriods := rfl

/-- A period at which the shock does not fire leaves the shock bookkeeping
alone; if moreover no shock has been applied yet, recovery bookkeeping is
also untouched. -/
lemma step_noHit (A r fF : ℝ) (shock : Option (ℕ × ℝ)) (ppy period : ℕ) (s : Dyn)
    (hhit : shockHit shock period = false) :
    (step A r fF shock ppy period s).preShockPeak = s.preShockPeak ∧
    (step A r fF shock ppy period s).shockApplied = s.shockApplied ∧
    (s.shockApplied = false →
      (step A r fF shock ppy period s).recoveryPeriods = s.recoveryPeriods ∧
      (step A r fF shock ppy period s).afterShockCounter = s.afterShockCounter) := by
  refine ⟨?_, ?_, fun hsa => ⟨?_, ?_⟩⟩
  · rw [step_preShockPeak_def]; simp [hhit]
  · rw [step_shockApplied_def]; simp [hhit]
  · rw [step_recovery_def]; simp [hhit, hsa]
  · rw [step_counter_def]; simp [hhit, hsa]

/-- A period after the shock with recovery still pending increments the
counter and records it exactly when the value reaches the target. -/
lemma step_pending (A r fF : ℝ) (shock : Option (ℕ × ℝ)) (ppy period : ℕ) (s : Dyn) (P : ℝ)
    (hhit : shockHit shock period = false) (hsa : s.shockApplied = true)
    (hpre : s.preShockPeak = some P) (hrec : s.recoveryPeriods = none) :
    (step A r fF shock ppy period s).afterShockCounter = s.afterShockCounter + 1 ∧
    (step A r fF shock ppy period s).recoveryPeriods =
      (if P ≤ (step A r fF shock ppy period s).portfolio
       then some (s.afterShockCounter + 1) else none) := by
  constructor
  · rw [step_counter_def]; simp [hhit, hsa, hpre, hrec]
  · rw [step_recovery_def, step_portfolio_def]
    simp [hhit, hsa, hpre, hrec]

/-- Once recovery has been recorded it is never overwritten and the
counter freezes. -/
lemma step_done (A r fF : ℝ) (shock : Option (ℕ × ℝ)) (ppy period : ℕ) (s : Dyn) (k : ℕ)
    (hhit : shockHit shock period = false) (hrec : s.recoveryPeriods = some k) :
    (step A r fF shock ppy period s).recoveryPeriods = some k ∧
    (step A r fF shock ppy period s).afterShockCounter = s.afterShockCounter := by
  constructor
  · rw [step_recovery_def]; simp [hhit, hrec]
  · rw [step_counter_def]; simp [hhit, hrec]

/-- The shock period records the pre-shock peak, marks the shock applied,
sets the counter to 1, and records recovery immediately when the
post-shock value already reaches the target. -/
lemma step_hit (A r fF : ℝ) (shock : Option (ℕ × ℝ)) (ppy period : ℕ) (s : Dyn)
    (hhit : shockHit shock period = true) (hrec : s.recoveryPeriods = none) :
    (step A r fF shock ppy period s).preShockPeak =
      some (if 0 < s.peak then s.peak else grossVal A r fF s) ∧
    (step A r fF shock ppy period s).shockApplied = true ∧
    (step A r fF shock ppy period s).afterShockCounter = 1 ∧
    (step A r fF shock ppy period s).recoveryPeriods =
      (if (if 0 < s.peak then s.peak else grossVal A r fF s) ≤
          (step A r fF shock ppy period s).portfolio
       then some 1 else none) := by
  refine ⟨?_, ?_, ?_, ?_⟩
  · rw [step_preShockPeak_def]; simp [hhit]
  · rw [step_shockApplied_def]; simp [hhit]
  · rw [step_counter_def]; simp [hhit, hrec]
  · rw [step_recovery_def, step_portfolio_def]; simp [hhit, hrec]

/-- Full characterization of the shock and recovery bookkeeping after n
periods for a shock scheduled at period T with 1 ≤ T: the pre-shock peak
is recorded exactly from period T on; recoveryPeriods is none exactly
while every value from period T through period n stays below the target,
and otherwise holds t - T + 1 for the first period t at which the value
reached the target. -/
lemma iterSim_recovery (A r fF sp : ℝ) (T ppy : ℕ) (hT : 1 ≤ T) (n : ℕ) :
    ((iterSim A r fF (some (T, sp)) ppy n).preShockPeak =
      if T ≤ n then some (preShockTarget A r fF (some (T, sp)) T) else none) ∧
    ((iterSim A r fF (some (T, sp)) ppy n).shockApplied = true ↔ T ≤ n) ∧
    ((iterSim A r fF (some (T, sp)) ppy n).recoveryPeriods = none →
      (iterSim A r fF (some (T, sp)) ppy n).afterShockCounter =
        (if T ≤ n then n - T + 1 else 0) ∧
      ∀ t, T ≤ t → t ≤ n →
        valSeq A r fF (some (T, sp)) t < preShockTarget A r fF (some (T, sp)) T) ∧
    (∀ k, (iterSim A r fF (some (T, sp)) ppy n).recoveryPeriods = some k →
      (iterSim A r fF (some (T, sp)) ppy n).afterShockCounter = k ∧
      ∃ t, T ≤ t ∧ t ≤ n ∧ k = t - T + 1 ∧
        preShockTarget A r fF (some (T, sp)) T ≤ valSeq A r fF (some (T, sp)) t ∧
        ∀ u, T ≤ u → u < t →
          valSeq A r fF (some (T, sp)) u < preShockTarget A r fF (some (T, sp)) T) := by
  induction n with
  | zero =>
      have h0 : ¬ T ≤ 0 := by omega
      refine ⟨by simp [iterSim, Dyn.init, h0], by simp [iterSim, Dyn.init, h0], ?_, ?_⟩
      · intro _
        refine ⟨by simp [iterSim, Dyn.init, h0], ?_⟩
        intro t ht ht0
        exact absurd (ht.trans ht0) h0
      · intro k hk
        simp [iterSim, Dyn.init] at hk
  | succ n ih =>
      obtain ⟨ihPre, ihSA, ihNone, ihSome⟩ := ih
      by_cases hTeq : T = n + 1
      · -- the shock fires at period n + 1
        have hTn : ¬ T ≤ n := by omega
        have hsa : (iterSim A r fF (some (T, sp)) ppy n).shockApplied = false := by
          cases h : (iterSim A r fF (some (T, sp)) ppy n).shockApplied
          · rfl
          · exact absurd (ihSA.mp h) hTn
        have hrecn : (iterSim A r fF (some (T, sp)) ppy n).recoveryPeriods = none := by
          rcases h : (iterSim A r fF (some (T, sp)) ppy n).recoveryPeriods with _ | k
          · rfl
          · obtain ⟨-, t, ht1, ht2, -⟩ := ihSome k h
            omega
        have hhit : shockHit (some (T, sp)) (n + 1) = true := by
          simp [shockHit, hTeq]
        obtain ⟨hp1, hp2, hp3, hp4⟩ := step_hit A r fF (some (T, sp)) ppy (n + 1)
          (iterSim A r fF (some (T, sp)) ppy n) hhit hrecn
        have hTm1 : T - 1 = n := by omega
        have htgt : (if 0 < (iterSim A r fF (some (T, sp)) ppy n).peak
              then (iterSim A r fF (some (T, sp)) ppy n).peak
              else grossVal A r fF (iterSim A r fF (some (T, sp)) ppy n)) =
            preShockTarget A r fF (some (T, sp)) T := by
          have hg : grossVal A r fF (iterSim A r fF (some (T, sp)) ppy n) =
              (valSeq A r fF (some (T, sp)) (T - 1) + A) * (1 + r) *
                (if fF < 1 then fF else 1) := by
            rw [grossVal, iterSim_portfolio, hTm1]
            split_ifs <;> ring
          rw [hg, iterSim_peak, preShockTarget, hTm1]
        have hport : (step A r fF (some (T, sp)) ppy (n + 1)
            (iterSim A r fF (some (T, sp)) ppy n)).portfolio =
            valSeq A r fF (some (T, sp)) (n + 1) := by
          rw [← iterSim, iterSim_portfolio]
        refine ⟨?_, ?_, ?_, ?_⟩
        · simp only [iterSim]
          rw [hp1, htgt, if_pos (by omega : T ≤ n + 1)]
        · simp only [iterSim]
          rw [hp2]
          simp
          omega
        · intro h
          simp only [iterSim] at h ⊢
          rw [hp4, htgt, hport] at h
          by_cases hrecov : preShockTarget A r fF (some (T, sp)) T ≤
              valSeq A r fF (some (T, sp)) (n + 1)
          · rw [if_pos hrecov] at h
            cases h
          · refine ⟨?_, ?_⟩
            · rw [hp3, if_pos (by omega : T ≤ n + 1)]
              omega
            · intro t ht1 ht2
              have ht : t = n + 1 := by omega
              subst ht
              exact lt_of_not_le hrecov
        · intro k hk
          simp only [iterSim] at hk ⊢
          rw [hp4, htgt, hport] at hk
          by_cases hrecov : preShockTarget A r fF (some (T, sp)) T ≤
              valSeq A r fF (some (T, sp)) (n + 1)
          · rw [if_pos hrecov] at hk
            have hk1 : k = 1 := (Option.some.inj hk).symm
            refine ⟨by rw [hp3, hk1], n + 1, by omega, le_refl _, by omega, hrecov, ?_⟩
            intro u hu1 hu2
            exact absurd (by omega : T ≤ n) hTn
          · rw [if_neg hrecov] at hk
            cases hk
      · by_cases hTn : T ≤ n
        · -- a period after the shock has fired
          have hhit : shockHit (some (T, sp)) (n + 1) = false := by
            simp [shockHit]
            omega
          have hpre : (iterSim A r fF (some (T, sp)) ppy n).preShockPeak =
              some (preShockTarget A r fF (some (T, sp)) T) := by
            rw [ihPre, if_pos hTn]
          have hsa : (iterSim A r fF (some (T, sp)) ppy n).shockApplied = true := ihSA.mpr hTn
          obtain ⟨hq1, hq2, -⟩ := step_noHit A r fF (some (T, sp)) ppy (n + 1)
            (iterSim A r fF (some (T, sp)) ppy n) hhit
          have hport : (step A r fF (some (T, sp)) ppy (n + 1)
              (iterSim A r fF (some (T, sp)) ppy n)).portfolio =
              valSeq A r fF (some (T, sp)) (n + 1) := by
            rw [← iterSim, iterSim_portfolio]
          rcases hrecn : (iterSim A r fF (some (T, sp)) ppy n).recoveryPeriods with _ | k
          · -- recovery still pending after period n
            obtain ⟨hcnt, hall⟩ := ihNone hrecn
            obtain ⟨hr1, hr2⟩ := step_pending A r fF (some (T, sp)) ppy (n + 1)
              (iterSim A r fF (some (T, sp)) ppy n)
              (preShockTarget A r fF (some (T, sp)) T) hhit hsa hpre hrecn
            refine ⟨?_, ?_, ?_, ?_⟩
            · simp only [iterSim]
              rw [hq1, hpre, if_pos (by omega : T ≤ n + 1)]
            · simp only [iterSim]
              rw [hq2, hsa]
              simp
              omega
            · intro h
              simp only [iterSim] at h ⊢
              rw [hr2, hport] at h
              by_cases hrecov : preShockTarget A r fF (some (T, sp)) T ≤
                  valSeq A r fF (some (T, sp)) (n + 1)
              · rw [if_pos hrecov] at h
                cases h
              · refine ⟨?_, ?_⟩
                · rw [hr1, hcnt, if_pos hTn, if_pos (by omega : T ≤ n + 1)]
                  omega
                · intro t ht1 ht2
                  rcases Nat.lt_or_ge t (n + 1) with h1 | h2
                  · exact hall t ht1 (by omega)
                  · have ht : t = n + 1 := by omega
                    subst ht
                    exact lt_of_not_le hrecov
            · intro k hk
              simp only [iterSim] at hk ⊢
              rw [hr2, hport] at hk
              by_cases hrecov : preShockTarget A r fF (some (T, sp)) T ≤
                  valSeq A r fF (some (T, sp)) (n + 1)
              · rw [if_pos hrecov] at hk
                have hk1 : k = (iterSim A r fF (some (T, sp)) ppy n).afterShockCounter + 1 :=
                  (Option.some.inj hk).symm
                refine ⟨by rw [hr1, hk1], n + 1, by omega, le_refl _, ?_, hrecov, ?_⟩
                · rw [hk1, hcnt, if_pos hTn]
                  omega
                · intro u hu1 hu2
                  exact hall u hu1 (by omega)
              · rw [if_neg hrecov] at hk
                cases hk
          · -- recovery already recorded after period n
            obtain ⟨hcnt, t, ht1, ht2, ht3, ht4, ht5⟩ := ihSome k hrecn
            obtain ⟨hd1, hd2⟩ := step_done A r fF (some (T, sp)) ppy (n + 1)
              (iterSim A r fF (some (T, sp)) ppy n) k hhit hrecn
            refine ⟨?_, ?_, ?_, ?_⟩
            · simp only [iterSim]
              rw [hq1, hpre, if_pos (by omega : T ≤ n + 1)]
            · simp only [iterSim]
              rw [hq2, hsa]
              simp
              omega
            · intro h
              simp only [iterSim] at h
              rw [hd1] at h
              cases h
            · intro k2 hk2
              simp only [iterSim] at hk2 ⊢
              rw [hd1] at hk2
              have hk : k2 = k := (Option.some.inj hk2).symm
              subst hk
              exact ⟨by rw [hd2, hcnt], t, ht1, by omega, ht3, ht4, ht5⟩
        · -- a period before the shock
          have hT1 : ¬ T ≤ n + 1 := by omega
          have hhit : shockHit (some (T, sp)) (n + 1) = false := by
            simp [shockHit]
            omega
          have hsa : (iterSim A r fF (some (T, sp)) ppy n).shockApplied = false := by
            cases h : (iterSim A r fF (some (T, sp)) ppy n).shockApplied
            · rfl
            · exact absurd (ihSA.mp h) hTn
          have hrecn : (iterSim A r fF (some (T, sp)) ppy n).recoveryPeriods = none := by
            rcases h : (iterSim A r fF (some (T, sp)) ppy n).recoveryPeriods with _ | k
            · rfl
            · obtain ⟨-, t, ht1, ht2, -⟩ := ihSome k h
              omega
          have hpre : (iterSim A r fF (some (T, sp)) ppy n).preShockPeak = none := by
            rw [ihPre, if_neg hTn]
          obtain ⟨hcnt, -⟩ := ihNone hrecn
          obtain ⟨hq1, hq2, hq3⟩ := step_noHit A r fF (some (T, sp)) ppy (n + 1)
            (iterSim A r fF (some (T, sp)) ppy n) hhit
          obtain ⟨hq4, hq5⟩ := hq3 hsa
          refine ⟨?_, ?_, ?_, ?_⟩
          · simp only [iterSim]
            rw [hq1, hpre, if_neg hT1]
          · simp only [iterSim]
            rw [hq2, hsa]
            simp [hT1]
          · intro h
            refine ⟨?_, ?_⟩
            · simp only [iterSim]
              rw [hq5, hcnt, if_neg hTn, if_neg hT1]
            · intro t ht1 ht2
              exact absurd (ht1.trans ht2) hT1
          · intro k hk
            simp only [iterSim] at hk
            rw [hq4, hrecn] at hk
            cases hk

/-- With zero growth, a fee factor not below 1 and no shock, each period
just adds the contribution. -/
lemma valSeq_linear (A fF : ℝ) (hf : ¬ fF < 1) (n : ℕ) :
    valSeq A 0 fF none n = A * n := by
  induction n with
  | zero => simp [valSeq]
  | succ n ih =>
      rw [valSeq, ih]
      simp [shockHit, hf]
      ring

/-- With a period rate of exactly -1 the closing value of every period is 0. -/
lemma valSeq_wipeout (A fF : ℝ) (shock : Option (ℕ × ℝ)) (n : ℕ) :
    valSeq A (-1) fF shock n = 0 := by
  cases n with
  | zero => rfl
  | succ n =>
      rw [valSeq]
      norm_num

/-- The closing values stay nonnegative when contribution, growth factor,
fee factor and shock factor are all nonnegative. -/
lemma valSeq_nonneg (A r fF : ℝ) (shock : Option (ℕ × ℝ))
    (hA : 0 ≤ A) (hr : 0 ≤ 1 + r) (hf : 0 ≤ fF)
    (hs : 0 ≤ 1 + shockPctOf shock / 100) (n : ℕ) :
    0 ≤ valSeq A r fF shock n := by
  induction n with
  | zero => exact le_refl 0
  | succ n ih =>
      rw [valSeq]
      have h2 : 0 ≤ (if fF < 1 then fF else 1) := by
        split_ifs
        · exact hf
        · norm_num
      have h3 : 0 ≤ (if shockHit shock (n + 1) then 1 + shockPctOf shock / 100 else 1) := by
        split_ifs
        · exact hs
        · norm_num
      exact mul_nonneg (mul_nonneg (mul_nonneg (add_nonneg ih hA) hr) h2) h3

/-- A lower fee factor never produces a higher closing value, for any
period and any shock schedule. -/
lemma valSeq_fee_mono (A r f1 f2 : ℝ) (shock : Option (ℕ × ℝ))
    (hA : 0 ≤ A) (hr : 0 ≤ 1 + r) (hs : 0 ≤ 1 + shockPctOf shock / 100)
    (hf2 : 0 ≤ f2) (h21 : f2 ≤ f1) (n : ℕ) :
    valSeq A r f2 shock n ≤ valSeq A r f1 shock n := by
  induction n with
  | zero => exact le_refl 0
  | succ n ih =>
      rw [valSeq, valSeq]
      have hv2 : 0 ≤ valSeq A r f2 shock n := valSeq_nonneg A r f2 shock hA hr hf2 hs n
      have hv1 : 0 ≤ valSeq A r f1 shock n := hv2.trans ih
      have he2 : 0 ≤ (if f2 < 1 then f2 else 1) := by
        split_ifs
        · exact hf2
        · norm_num
      have hee : (if f2 < 1 then f2 else 1) ≤ (if f1 < 1 then f1 else 1) := by
        split_ifs with ha hb hb
        · exact h21
        · exact ha.le
        · linarith [not_lt.mp ha]
        · exact le_refl 1
      have hs3 : 0 ≤ (if shockHit shock (n + 1) then 1 + shockPctOf shock / 100 else 1) := by
        split_ifs
        · exact hs
        · norm_num
      have hbase : (valSeq A r f2 shock n + A) * (1 + r) ≤
          (valSeq A r f1 shock n + A) * (1 + r) :=
        mul_le_mul_of_nonneg_right (add_le_add_right ih A) hr
      have hbase1 : 0 ≤ (valSeq A r f1 shock n + A) * (1 + r) :=
        mul_nonneg (add_nonneg hv1 hA) hr
      have hmid : (valSeq A r f2 shock n + A) * (1 + r) * (if f2 < 1 then f2 else 1) ≤
          (valSeq A r f1 shock n + A) * (1 + r) * (if f1 < 1 then f1 else 1) :=
        mul_le_mul hbase hee he2 hbase1
      exact mul_le_mul_of_nonneg_right hmid hs3

/-- A zero annual return gives a weekly rate of exactly 0. -/
lemma weeklyRateFromAnnual_zero : weeklyRateFromAnnual 0 = 0 := by
  simp only [weeklyRateFromAnnual]
  rw [if_neg (by norm_num)]
  norm_num [Real.one_rpow]

/-- An annual return at or below -100 percent is floored to a weekly rate
of exactly -1. -/
lemma weeklyRateFromAnnual_floor (a : ℝ) (h : a ≤ -100) : weeklyRateFromAnnual a = -1 := by
  simp only [weeklyRateFromAnnual]
  rw [if_pos (by linarith : a / 100 ≤ -1)]

/-- A nonpositive fee yields the neutral weekly fee factor 1. -/
lemma weeklyFeeFactorFromAnnual_nonpos (f : ℝ) (h : f ≤ 0) :
    weeklyFeeFactorFromAnnual f = 1 := by
  simp only [weeklyFeeFactorFromAnnual]
  rw [if_pos (by linarith : f / 100 ≤ 0)]

/-- The weekly fee factor never exceeds 1. -/
lemma weeklyFeeFactorFromAnnual_le_one (f : ℝ) : weeklyFeeFactorFromAnnual f ≤ 1 := by
  simp only [weeklyFeeFactorFromAnnual]
  split_ifs with h1 h2
  · exact le_refl 1
  · norm_num
  · exact Real.rpow_le_one (by linarith [not_le.mp h1]) (by linarith [not_le.mp h1])
      (by norm_num)

/-- The weekly fee factor is nonnegative. -/
lemma weeklyFeeFactorFromAnnual_nonneg (f : ℝ) : 0 ≤ weeklyFeeFactorFromAnnual f := by
  simp only [weeklyFeeFactorFromAnnual]
  split_ifs with h1 h2
  · norm_num
  · exact le_refl 0
  · exact Real.rpow_nonneg (by linarith [not_le.mp h2]) _

/-- In both frequency modes the growth factor 1 + rate is nonnegative for
annual returns not below -100 percent. -/
lemma one_add_periodRate_nonneg (c : CParams) (h : -100 ≤ c.annualReturnPct) :
    0 ≤ 1 + periodRate c := by
  simp only [periodRate]
  split_ifs with hm
  · have h0 : 0 ≤ (1 + c.annualReturnPct / 100) ^ ((1 : ℝ) / 12) :=
      Real.rpow_nonneg (by linarith) _
    linarith
  · simp only [weeklyRateFromAnnual]
    split_ifs with h2
    · norm_num
    · have h0 : 0 ≤ (1 + c.annualReturnPct / 100) ^ ((1 : ℝ) / 52) :=
        Real.rpow_nonneg (by linarith [not_le.mp h2]) _
      linarith

/-- A zero annual return gives a period rate of exactly 0 in both modes. -/
lemma periodRate_zero (c : CParams) (h : c.annualReturnPct = 0) : periodRate c = 0 := by
  simp only [periodRate, h]
  split_ifs
  · norm_num [Real.one_rpow]
  · exact weeklyRateFromAnnual_zero

/-- An annual return of exactly -100 percent gives a period rate of
exactly -1 in both modes. -/
lemma periodRate_wipeout (c : CParams) (h : c.annualReturnPct = -100) : periodRate c = -1 := by
  simp only [periodRate, h]
  split_ifs
  · rw [show (1 + (-100 : ℝ) / 100) = 0 by norm_num, Real.zero_rpow (by norm_num)]
    norm_num
  · exact weeklyRateFromAnnual_floor _ (le_refl _)

/-- A zero annual fee gives the neutral period fee factor 1 in both modes. -/
lemma periodFeeFactor_zero (c : CParams) (h : c.annualFeePct = 0) : periodFeeFactor c = 1 := by
  simp only [periodFeeFactor, h]
  split_ifs
  · norm_num [Real.one_rpow]
  · exact weeklyFeeFactorFromAnnual_nonpos 0 (le_refl 0)

/-- The period fee factor is nonnegative for fees of at most 100 percent. -/
lemma periodFeeFactor_nonneg (c : CParams) (h : c.annualFeePct ≤ 100) :
    0 ≤ periodFeeFactor c := by
  simp only [periodFeeFactor]
  split_ifs
  · exact Real.rpow_nonneg (by linarith) _
  · exact weeklyFeeFactorFromAnnual_nonneg _

/-- The period fee factor never exceeds 1 for fees in [0, 100]. -/
lemma periodFeeFactor_le_one (c : CParams) (h0 : 0 ≤ c.annualFeePct)
    (h1 : c.annualFeePct ≤ 100) : periodFeeFactor c ≤ 1 := by
  simp only [periodFeeFactor]
  split_ifs
  · exact Real.rpow_le_one (by linarith) (by linarith) (by norm_num)
  · exact weeklyFeeFactorFromAnnual_le_one _

/-- Indexing into the mapped range list used for the series. -/
lemma getD_range_map (f : ℕ → ℝ) (n t : ℕ) (ht : t < n) :
    ((List.range n).map f).getD t 0 = f t := by
  rw [List.getD_eq_getElem _ _ (by simpa using ht)]
  simp

/-- Forget the milestones component, mapping the first-snapshot loop state
onto the second-snapshot one. -/
def Dyn.toDyn2 (s : Dyn) : Dyn2 :=
  ⟨s.portfolio, s.contributed, s.peak, s.maxDrawdown, s.preShockPeak, s.recoveryPeriods,
    s.shockApplied, s.afterShockCounter, s.series⟩

/-- For a fee factor of at most 1 the conditional fee multiplication of
the first snapshot agrees with the unconditional one of the second, so
the two loop bodies coincide on the shared state components. -/
lemma step2_eq_step (A r fF : ℝ) (shock : Option (ℕ × ℝ)) (ppy period : ℕ) (s : Dyn)
    (hf : fF ≤ 1) :
    step2 A r fF shock period (Dyn.toDyn2 s) =
      Dyn.toDyn2 (step A r fF shock ppy period s) := by
  by_cases hlt : fF < 1
  · simp [step, step2, Dyn.toDyn2, hlt]
  · have h1 : fF = 1 := le_antisymm hf (not_lt.mp hlt)
    subst h1
    simp [step, step2, Dyn.toDyn2]

/-- The two loops agree after any number of periods when the fee factor
is at most 1. -/
lemma iterSim2_eq (A r fF : ℝ) (shock : Option (ℕ × ℝ)) (ppy : ℕ) (hf : fF ≤ 1) (n : ℕ) :
    iterSim2 A r fF shock n = Dyn.toDyn2 (iterSim A r fF shock ppy n) := by
  induction n with
  | zero => rfl
  | succ n ih =>
      rw [iterSim2, ih, step2_eq_step A r fF shock ppy (n + 1) _ hf, iterSim]

/-- The final value of the projection is the closed-form value after the
last period. -/
lemma project_finalValue (c : CParams) :
    (project c).finalValue = valSeq c.weeklyAmount (periodRate c) (periodFeeFactor c)
      (shockSpec c) (totalPeriodsOf c) := by
  simp only [project]
  rw [iterSim_portfolio]

/-- The total contributed by the projection is the contribution times the
period count. -/
lemma project_contributed (c : CParams) :
    (project c).contributed = c.weeklyAmount * (totalPeriodsOf c : ℝ) := by
  simp only [project]
  rw [iterSim_contributed]

/-- The series of the projection lists the closed-form period values. -/
lemma project_series (c : CParams) :
    (project c).series = (List.range (totalPeriodsOf c)).map
      (fun k => valSeq c.weeklyAmount (periodRate c) (periodFeeFactor c)
        (shockSpec c) (k + 1)) := by
  simp only [project]
  rw [iterSim_series]

/-- The recovery field of the projection is the loop recovery counter,
scaled by 4 in monthly mode. -/
lemma project_recoveryWeeks (c : CParams) :
    (project c).recoveryWeeks =
      (iterSim c.weeklyAmount (periodRate c) (periodFeeFactor c) (shockSpec c)
        (periodsPerYearOf c) (totalPeriodsOf c)).recoveryPeriods.map
        (fun n => if c.frequency = "monthly" then n * 4 else n) := rfl

/-- The shock factor of a configuration with in-range shock percentage is
nonnegative. -/
lemma one_add_shockPct_nonneg (c : CParams)
    (h : ∀ sp ∈ c.shockPct, -95 ≤ sp ∧ sp ≤ 0) :
    0 ≤ 1 + shockPctOf (shockSpec c) / 100 := by
  rcases hsp : c.shockPct with _ | sp
  · simp [shockSpec, shockPctOf, hsp]
  · rcases hsy : c.shockYear with _ | sy
    · simp [shockSpec, shockPctOf, hsp, hsy]
    · have hsp95 : -95 ≤ sp := (h sp (by rw [hsp]; rfl)).1
      simp only [shockSpec, shockPctOf, hsp, hsy]
      linarith

/-- The clamp function lands in the requested interval when it is
nonempty. -/
lemma clamp_mem (v lo hi : ℝ) (h : lo ≤ hi) : lo ≤ clamp v lo hi ∧ clamp v lo hi ≤ hi := by
  constructor
  · exact le_min h (le_max_left lo v)
  · exact min_le_left hi _

/-- C8: for every configuration with horizonYears = 0, the projection runs
zero periods and returns a result whose series and milestones are empty,
whose finalValue, totalContributed, gains, maxDrawdownPct and
inflation-adjusted value are 0, and whose recovery field is absent. -/
theorem C8_horizon_zero_all_outputs_empty (c : CParams) (h : c.years = 0) :
    totalPeriodsOf c = 0 ∧ (project c).series = [] ∧ (project c).finalValue = 0 ∧
    (project c).contributed = 0 ∧ (project c).gains = 0 ∧
    (project c).maxDrawdownPct = 0 ∧ (project c).recoveryWeeks = none ∧
    (project c).milestones = [] ∧ (project c).inflationAdjusted = 0 := by
  have hN : totalPeriodsOf c = 0 := by
    rw [totalPeriodsOf, h]
    norm_num
  refine ⟨hN, ?_, ?_, ?_, ?_, ?_, ?_, ?_, ?_⟩ <;>
    simp [project, hN, iterSim, Dyn.init, h]

/-- Witness for C8 at a concrete zero-horizon configuration. -/
noncomputable def cfgC8 : CParams := ⟨100, 0, 7, 0, none, none, "weekly", .jnum 3⟩

/-- C8 witness: the zero-horizon theorem applied at a concrete input. -/
theorem C8_witness : cfgC8.years = 0 ∧ (project cfgC8).series = [] ∧
    (project cfgC8).finalValue = 0 ∧ (project cfgC8).contributed = 0 :=
  ⟨rfl, (C8_horizon_zero_all_outputs_empty cfgC8 rfl).2.1,
    (C8_horizon_zero_all_outputs_empty cfgC8 rfl).2.2.1,
    (C8_horizon_zero_all_outputs_empty cfgC8 rfl).2.2.2.1⟩

/-- C6: an annual return of -100 percent yields a period rate of exactly
-1 (as does any annual return below -100 in the weekly converter), the
portfolio closes every period at 0, and the final value is 0: each period
only the fresh contribution is present before the wipeout factor lands. -/
theorem C6_total_wipeout (c : CParams) (h : c.annualReturnPct = -100) :
    periodRate c = -1 ∧ (∀ a : ℝ, a ≤ -100 → weeklyRateFromAnnual a = -1) ∧
    (∀ v ∈ (project c).series, v = 0) ∧ (project c).finalValue = 0 := by
  have hr := periodRate_wipeout c h
  refine ⟨hr, fun a ha => weeklyRateFromAnnual_floor a ha, ?_, ?_⟩
  · intro v hv
    rw [project_series, hr] at hv
    simp only [List.mem_map] at hv
    obtain ⟨k, -, rfl⟩ := hv
    exact valSeq_wipeout _ _ _ _
  · rw [project_finalValue, hr]
    exact valSeq_wipeout _ _ _ _

/-- Witness configuration for C6. -/
noncomputable def cfgC6 : CParams := ⟨100, 1, -100, 0, none, none, "weekly", .jnum 3⟩

/-- C6 witness: the wipeout theorem applied at a concrete input. -/
theorem C6_witness : cfgC6.annualReturnPct = -100 ∧ periodRate cfgC6 = -1 ∧
    (project cfgC6).finalValue = 0 :=
  ⟨rfl, (C6_total_wipeout cfgC6 rfl).1, (C6_total_wipeout cfgC6 rfl).2.2.2⟩

/-- C5 (amended): with zero return, zero fee and no shock the final value
equals the total contributed, which is the periodic amount times the
period count floor(horizonYears times periodsPerYear). -/
theorem C5_zero_rate_identity (c : CParams) (hret : c.annualReturnPct = 0)
    (hfee : c.annualFeePct = 0) (hsp : c.shockPct = none) :
    (project c).finalValue = (project c).contributed ∧
    (project c).contributed = c.weeklyAmount * (totalPeriodsOf c : ℝ) := by
  have hshock : shockSpec c = none := by
    simp [shockSpec, hsp]
  constructor
  · rw [project_finalValue, project_contributed, periodRate_zero c hret,
      periodFeeFactor_zero c hfee, hshock, valSeq_linear _ _ (by norm_num)]
  · exact project_contributed c

/-- Witness configuration for C5. -/
noncomputable def cfgC5w : CParams := ⟨100, 2, 0, 0, none, none, "weekly", .jnum 3⟩

/-- C5 witness: the zero-rate identity applied at a concrete input. -/
theorem C5_witness : cfgC5w.annualReturnPct = 0 ∧ cfgC5w.annualFeePct = 0 ∧
    cfgC5w.shockPct = none ∧
    (project cfgC5w).finalValue = (project cfgC5w).contributed ∧
    (project cfgC5w).contributed = cfgC5w.weeklyAmount * (totalPeriodsOf cfgC5w : ℝ) :=
  ⟨rfl, rfl, rfl, (C5_zero_rate_identity cfgC5w rfl rfl rfl).1,
    (C5_zero_rate_identity cfgC5w rfl rfl rfl).2⟩

/-- Counterexample configuration for C5: a fractional horizon of 1/10
year, for which floor(0.1 times 52) = 5 periods run. -/
noncomputable def cfgC5x : CParams := ⟨100, 1 / 10, 0, 0, none, none, "weekly", .jnum 3⟩

/-- Period count of the C5 counterexample configuration. -/
lemma cfgC5x_N : totalPeriodsOf cfgC5x = 5 := by
  have h : ⌊cfgC5x.years * ((periodsPerYearOf cfgC5x : ℕ) : ℝ)⌋ = 5 := by
    show ⌊(1 / 10 : ℝ) * ((52 : ℕ) : ℝ)⌋ = 5
    push_cast
    norm_num
  rw [totalPeriodsOf, h]
  rfl

/-- C5 counterexample: at horizonYears = 1/10 the run produces finalValue
500 = 100 times floor(5.2), while the claim formula periodicAmount times
horizonYears times periodsPerYear gives 520. -/
theorem C5_counterexample : (project cfgC5x).finalValue = 500 ∧
    cfgC5x.weeklyAmount * cfgC5x.years * ((periodsPerYearOf cfgC5x : ℕ) : ℝ) = 520 ∧
    (500 : ℝ) ≠ 520 := by
  refine ⟨?_, ?_, by norm_num⟩
  · rw [project_finalValue, periodRate_zero cfgC5x rfl, periodFeeFactor_zero cfgC5x rfl,
      show shockSpec cfgC5x = none from rfl, cfgC5x_N,
      valSeq_linear _ _ (by norm_num)]
    show (100 : ℝ) * ((5 : ℕ) : ℝ) = 500
    push_cast
    norm_num
  · show (100 : ℝ) * (1 / 10) * ((52 : ℕ) : ℝ) = 520
    push_cast
    norm_num

/-- C3 (amended): whenever inflationPct is a nonzero number x, the
inflation-adjusted final value equals finalValue / (1 + x/100) ^ years. -/
theorem C3_inflation_formula (c : CParams) (x : ℝ) (hx : c.inflationPct = .jnum x)
    (hx0 : x ≠ 0) :
    (project c).inflationAdjusted = (project c).finalValue / (1 + x / 100) ^ c.years := by
  simp only [project, jsOr3, hx]
  rw [if_neg hx0]

/-- Witness configuration for C3. -/
noncomputable def cfgC3w : CParams := ⟨100, 1, 7, 0, none, none, "weekly", .jnum 2⟩

/-- C3 witness: the inflation formula applied at a concrete input with
inflationPct = 2. -/
theorem C3_witness : cfgC3w.inflationPct = JVal.jnum 2 ∧ (2 : ℝ) ≠ 0 ∧
    (project cfgC3w).inflationAdjusted =
      (project cfgC3w).finalValue / (1 + 2 / 100) ^ cfgC3w.years :=
  ⟨rfl, by norm_num, C3_inflation_formula cfgC3w 2 rfl (by norm_num)⟩

/-- Counterexample configuration for C3: inflationPct = 0, monthly, one
year of zero-growth contributions. -/
noncomputable def cfgC3x : CParams := ⟨100, 1, 0, 0, none, none, "monthly", .jnum 0⟩

/-- Period count of the C3 counterexample configuration. -/
lemma cfgC3x_N : totalPeriodsOf cfgC3x = 12 := by
  have h : ⌊cfgC3x.years * ((periodsPerYearOf cfgC3x : ℕ) : ℝ)⌋ = 12 := by
    show ⌊(1 : ℝ) * ((12 : ℕ) : ℝ)⌋ = 12
    push_cast
    norm_num
  rw [totalPeriodsOf, h]
  rfl

/-- C3 counterexample: with inflationPct = 0 the engine divides by
(1 + 3/100) ^ years instead of (1 + 0/100) ^ years, because the JS
expression inflationPct || 3 treats 0 as falsy. -/
theorem C3_counterexample : (project cfgC3x).finalValue = 1200 ∧
    (project cfgC3x).inflationAdjusted = 120000 / 103 ∧
    (project cfgC3x).inflationAdjusted ≠
      (project cfgC3x).finalValue / (1 + 0 / 100) ^ cfgC3x.years := by
  have hfv : (project cfgC3x).finalValue = 1200 := by
    rw [project_finalValue, periodRate_zero cfgC3x rfl, periodFeeFactor_zero cfgC3x rfl,
      show shockSpec cfgC3x = none from rfl, cfgC3x_N,
      valSeq_linear _ _ (by norm_num)]
    show (100 : ℝ) * ((12 : ℕ) : ℝ) = 1200
    push_cast
    norm_num
  have hia : (project cfgC3x).inflationAdjusted =
      (project cfgC3x).finalValue / (1 + 3 / 100) ^ cfgC3x.years := by
    simp only [project, jsOr3]
    rw [show cfgC3x.inflationPct = JVal.jnum 0 from rfl]
    norm_num
  refine ⟨hfv, ?_, ?_⟩
  · rw [hia, hfv, show cfgC3x.years = (1 : ℝ) from rfl, Real.rpow_one]
    norm_num
  · rw [hia, hfv, show cfgC3x.years = (1 : ℝ) from rfl, Real.rpow_one,
      show (1 + (0 : ℝ) / 100) = 1 by norm_num, Real.one_rpow]
    norm_num

/-- C9: for every normalized configuration the running portfolio value is
nonnegative at every period, and so is the final value. -/
theorem C9_portfolio_nonneg (c : CParams) (h : Normalized c) :
    (∀ v ∈ (project c).series, 0 ≤ v) ∧ 0 ≤ (project c).finalValue := by
  obtain ⟨hA, -, -, -, hrlo, -, hflo, hfhi, hsp, -, -⟩ := h
  have hr := one_add_periodRate_nonneg c hrlo
  have hf := periodFeeFactor_nonneg c (by linarith)
  have hs := one_add_shockPct_nonneg c hsp
  constructor
  · intro v hv
    rw [project_series] at hv
    simp only [List.mem_map] at hv
    obtain ⟨k, -, rfl⟩ := hv
    exact valSeq_nonneg _ _ _ _ hA hr hf hs _
  · rw [project_finalValue]
    exact valSeq_nonneg _ _ _ _ hA hr hf hs _

/-- Witness configuration for C9. -/
noncomputable def cfgC9 : CParams := ⟨100, 10, 7, 1, some (-30), some 3, "weekly", .jnum 3⟩

/-- C9 witness: nonnegativity at a concrete normalized configuration. -/
theorem C9_witness : Normalized cfgC9 ∧ 0 ≤ (project cfgC9).finalValue := by
  have hn : Normalized cfgC9 := by
    refine ⟨by norm_num [cfgC9], by norm_num [cfgC9], by norm_num [cfgC9],
      by norm_num [cfgC9], by norm_num [cfgC9], by norm_num [cfgC9],
      by norm_num [cfgC9], by norm_num [cfgC9], ?_, ?_, by simp [cfgC9]⟩
    · intro sp hsp
      rw [show cfgC9.shockPct = some (-30 : ℝ) from rfl] at hsp
      simp only [Option.mem_def, Option.some.injEq] at hsp
      subst hsp
      norm_num
    · intro sy hsy
      rw [show cfgC9.shockYear = some (3 : ℝ) from rfl] at hsy
      simp only [Option.mem_def, Option.some.injEq] at hsy
      subst hsy
      norm_num [cfgC9]
  exact ⟨hn, (C9_portfolio_nonneg cfgC9 hn).2⟩

/-- C7: holding every other parameter fixed, a positive in-range fee never
produces a higher final value than the no-fee run. -/
theorem C7_fee_monotone (c1 c2 : CParams) (h1 : Normalized c1)
    (hW : c2.weeklyAmount = c1.weeklyAmount) (hY : c2.years = c1.years)
    (hR : c2.annualReturnPct = c1.annualReturnPct)
    (hSP : c2.shockPct = c1.shockPct) (hSY : c2.shockYear = c1.shockYear)
    (hFr : c2.frequency = c1.frequency) (_hI : c2.inflationPct = c1.inflationPct)
    (hfee1 : c1.annualFeePct = 0) (hfee2lo : 0 < c2.annualFeePct)
    (hfee2hi : c2.annualFeePct ≤ 5) :
    (project c2).finalValue ≤ (project c1).finalValue := by
  obtain ⟨hA, -, -, -, hrlo, -, -, -, hsp, -, -⟩ := h1
  have hppy : periodsPerYearOf c2 = periodsPerYearOf c1 := by
    simp [periodsPerYearOf, hFr]
  have hN : totalPeriodsOf c2 = totalPeriodsOf c1 := by
    simp [totalPeriodsOf, hY, hppy]
  have hrate : periodRate c2 = periodRate c1 := by
    simp [periodRate, hFr, hR]
  have hshock : shockSpec c2 = shockSpec c1 := by
    simp only [shockSpec, hSP, hSY, hN, hppy]
  have hf1 : periodFeeFactor c1 = 1 := periodFeeFactor_zero c1 hfee1
  have hf2lo : 0 ≤ periodFeeFactor c2 := periodFeeFactor_nonneg c2 (by linarith)
  have hf2hi : periodFeeFactor c2 ≤ 1 := periodFeeFactor_le_one c2 (by linarith) (by linarith)
  have hr : 0 ≤ 1 + periodRate c1 := one_add_periodRate_nonneg c1 hrlo
  have hs : 0 ≤ 1 + shockPctOf (shockSpec c1) / 100 := one_add_shockPct_nonneg c1 hsp
  rw [project_finalValue, project_finalValue, hW, hrate, hshock, hN, hf1]
  exact valSeq_fee_mono c1.weeklyAmount (periodRate c1) 1 (periodFeeFactor c2)
    (shockSpec c1) hA hr hs hf2lo hf2hi _

/-- Witness configurations for C7: identical runs apart from the fee. -/
noncomputable def cfgC7a : CParams := ⟨100, 10, 7, 0, some (-30), some 3, "weekly", .jnum 3⟩

/-- The C7 witness run with a 1 percent annual fee. -/
noncomputable def cfgC7b : CParams := ⟨100, 10, 7, 1, some (-30), some 3, "weekly", .jnum 3⟩

/-- C7 witness: fee monotonicity applied at a concrete pair of inputs. -/
theorem C7_witness : Normalized cfgC7a ∧ cfgC7a.annualFeePct = 0 ∧
    (0 : ℝ) < cfgC7b.annualFeePct ∧ cfgC7b.annualFeePct ≤ 5 ∧
    (project cfgC7b).finalValue ≤ (project cfgC7a).finalValue := by
  have hn : Normalized cfgC7a := by
    refine ⟨by norm_num [cfgC7a], by norm_num [cfgC7a], by norm_num [cfgC7a],
      by norm_num [cfgC7a], by norm_num [cfgC7a], by norm_num [cfgC7a],
      by norm_num [cfgC7a], by norm_num [cfgC7a], ?_, ?_, by simp [cfgC7a]⟩
    · intro sp hsp
      rw [show cfgC7a.shockPct = some (-30 : ℝ) from rfl] at hsp
      simp only [Option.mem_def, Option.some.injEq] at hsp
      subst hsp
      norm_num
    · intro sy hsy
      rw [show cfgC7a.shockYear = some (3 : ℝ) from rfl] at hsy
      simp only [Option.mem_def, Option.some.injEq] at hsy
      subst hsy
      norm_num [cfgC7a]
  refine ⟨hn, rfl, by norm_num [cfgC7b], by norm_num [cfgC7b], ?_⟩
  exact C7_fee_monotone cfgC7a cfgC7b hn rfl rfl rfl rfl rfl rfl rfl rfl
    (by norm_num [cfgC7b]) (by norm_num [cfgC7b])

/-- C10: for every raw bundle without a frequency field (weekly mode) the
two snapshots of simulateDCA agree on contributed, finalValue, gains,
maxDrawdownPct, recoveryWeeks and series. -/
theorem C10_snapshots_agree (raw : RawParams) (hfreq : raw.frequency = none) :
    (simulateDCA raw).contributed = (simulateDCA2 raw).contributed ∧
    (simulateDCA raw).finalValue = (simulateDCA2 raw).finalValue ∧
    (simulateDCA raw).gains = (simulateDCA2 raw).gains ∧
    (simulateDCA raw).maxDrawdownPct = (simulateDCA2 raw).maxDrawdownPct ∧
    (simulateDCA raw).recoveryWeeks = (simulateDCA2 raw).recoveryWeeks ∧
    (simulateDCA raw).series = (simulateDCA2 raw).series := by
  have hfw : (clampParams raw).frequency = "weekly" := by
    show raw.frequency.getD "weekly" = "weekly"
    rw [hfreq]
    rfl
  have hppy : periodsPerYearOf (clampParams raw) = 52 := by
    simp [periodsPerYearOf, hfw]
  have hA : (clampParams raw).weeklyAmount = (clampParams2 raw).weeklyAmount := rfl
  have hY : (clampParams raw).years = (clampParams2 raw).years := rfl
  have hR : (clampParams raw).annualReturnPct = (clampParams2 raw).annualReturnPct := rfl
  have hF : (clampParams raw).annualFeePct = (clampParams2 raw).annualFeePct := rfl
  have hSP : (clampParams raw).shockPct = (clampParams2 raw).shockPct := rfl
  have hSY : (clampParams raw).shockYear = (clampParams2 raw).shockYear := rfl
  have hrate : periodRate (clampParams raw) =
      weeklyRateFromAnnual (clampParams2 raw).annualReturnPct := by
    simp only [periodRate, hfw]
    rw [if_neg (by decide), hR]
  have hfee : periodFeeFactor (clampParams raw) =
      weeklyFeeFactorFromAnnual (clampParams2 raw).annualFeePct := by
    simp only [periodFeeFactor, hfw]
    rw [if_neg (by decide), hF]
  have hN : totalPeriodsOf (clampParams raw) = totalWeeksOf (clampParams2 raw) := by
    simp only [totalPeriodsOf, totalWeeksOf, hppy, hY]
    norm_num
  have hshock : shockSpec (clampParams raw) = shockSpec2 (clampParams2 raw) := by
    rcases hsp : (clampParams2 raw).shockPct with _ | sp <;>
      rcases hsy : (clampParams2 raw).shockYear with _ | sy <;>
        simp only [shockSpec, shockSpec2, hSP, hSY, hsp, hsy, hN, hppy] <;>
          norm_num
  have hiter : iterSim2 (clampParams2 raw).weeklyAmount
      (weeklyRateFromAnnual (clampParams2 raw).annualReturnPct)
      (weeklyFeeFactorFromAnnual (clampParams2 raw).annualFeePct)
      (shockSpec2 (clampParams2 raw)) (totalWeeksOf (clampParams2 raw)) =
      Dyn.toDyn2 (iterSim (clampParams raw).weeklyAmount (periodRate (clampParams raw))
        (periodFeeFactor (clampParams raw)) (shockSpec (clampParams raw))
        (periodsPerYearOf (clampParams raw)) (totalPeriodsOf (clampParams raw))) := by
    rw [← hA, ← hrate, ← hfee, ← hshock, ← hN]
    exact iterSim2_eq _ _ _ _ _ (by rw [hfee]; exact weeklyFeeFactorFromAnnual_le_one _) _
  refine ⟨?_, ?_, ?_, ?_, ?_, ?_⟩
  · show (project (clampParams raw)).contributed = (simulateDCA2 raw).contributed
    simp only [project, simulateDCA2]
    rw [hiter]
    rfl
  · show (project (clampParams raw)).finalValue = (simulateDCA2 raw).finalValue
    simp only [project, simulateDCA2]
    rw [hiter]
    rfl
  · show (project (clampParams raw)).gains = (simulateDCA2 raw).gains
    simp only [project, simulateDCA2]
    rw [hiter]
    rfl
  · show (project (clampParams raw)).maxDrawdownPct = (simulateDCA2 raw).maxDrawdownPct
    simp only [project, simulateDCA2]
    rw [hiter]
    rfl
  · show (project (clampParams raw)).recoveryWeeks = (simulateDCA2 raw).recoveryWeeks
    simp only [project, simulateDCA2]
    rw [hiter, hfw]
    have hid : (fun n : ℕ => if ("weekly" : String) = "monthly" then n * 4 else n) =
        fun n : ℕ => n := by
      funext n
      rw [if_neg (by decide)]
    rw [hid]
    have hmap : ∀ x : Option ℕ, Option.map (fun n : ℕ => n) x = x := by
      intro x
      cases x <;> rfl
    rw [hmap]
    rfl
  · show (project (clampParams raw)).series = (simulateDCA2 raw).series
    simp only [project, simulateDCA2]
    rw [hiter]
    rfl

/-- Witness raw bundle for C10: the empty bundle (all defaults). -/
def rawC10 : RawParams := {}

/-- C10 witness: snapshot agreement applied at a concrete raw bundle. -/
theorem C10_witness : rawC10.frequency = none ∧
    (simulateDCA rawC10).finalValue = (simulateDCA2 rawC10).finalValue ∧
    (simulateDCA rawC10).series = (simulateDCA2 rawC10).series :=
  ⟨rfl, (C10_snapshots_agree rawC10 rfl).2.1,
    (C10_snapshots_agree rawC10 rfl).2.2.2.2.2⟩

/-- C1 (amended): with a shock configured, the firing period is computed
once at setup as floor(shockAtYear) times periodsPerYear, clamped to at
least 1 and at most the total period count, and every period value obeys
the recurrence (previous + contribution) times growth times fee, with the
extra factor (1 + pctDrop/100) at exactly the firing period and a factor
1 at every other period. -/
theorem C1_shock_fires_once (c : CParams) (sp sy : ℝ) (hsp : c.shockPct = some sp)
    (hsy : c.shockYear = some sy) :
    shockSpec c = some
      ((min (totalPeriodsOf c : ℤ) (max 1 (⌊sy⌋ * (periodsPerYearOf c : ℤ)))).toNat, sp) ∧
    (project c).series.length = totalPeriodsOf c ∧
    (∀ T, (min (totalPeriodsOf c : ℤ)
        (max 1 (⌊sy⌋ * (periodsPerYearOf c : ℤ)))).toNat = T →
      ∀ k, k < totalPeriodsOf c →
        (project c).series.getD k 0 =
          ((if k = 0 then 0 else (project c).series.getD (k - 1) 0) + c.weeklyAmount) *
            (1 + periodRate c) *
            (if periodFeeFactor c < 1 then periodFeeFactor c else 1) *
            (if T = k + 1 then 1 + sp / 100 else 1)) := by
  have hss : shockSpec c = some
      ((min (totalPeriodsOf c : ℤ) (max 1 (⌊sy⌋ * (periodsPerYearOf c : ℤ)))).toNat, sp) := by
    simp only [shockSpec, hsp, hsy]
  refine ⟨hss, ?_, ?_⟩
  · rw [project_series]
    simp
  · intro T hT k hk
    have hgetk : (project c).series.getD k 0 = valSeq c.weeklyAmount (periodRate c)
        (periodFeeFactor c) (shockSpec c) (k + 1) := by
      rw [project_series, getD_range_map _ _ _ hk]
    have hprev : (if k = 0 then 0 else (project c).series.getD (k - 1) 0) =
        valSeq c.weeklyAmount (periodRate c) (periodFeeFactor c) (shockSpec c) k := by
      by_cases hk0 : k = 0
      · subst hk0
        rw [if_pos rfl]
        rfl
      · rw [if_neg hk0, project_series, getD_range_map _ _ _ (by omega)]
        congr 1
        omega
    rw [hgetk, hprev, valSeq, hss]
    subst hT
    simp only [shockHit, shockPctOf]
    congr 1
    by_cases hTk : (min (totalPeriodsOf c : ℤ)
        (max 1 (⌊sy⌋ * (periodsPerYearOf c : ℤ)))).toNat = k + 1
    · rw [if_pos hTk, if_pos (by simpa using hTk)]
    · rw [if_neg hTk, if_neg (by simpa using hTk)]

/-- Witness configuration for C1. -/
noncomputable def cfgC1w : CParams := ⟨100, 10, 7, 0, some (-30), some 3, "weekly", .jnum 3⟩

/-- C1 witness: the shock-period theorem applied at a concrete input. -/
theorem C1_witness : cfgC1w.shockPct = some (-30) ∧ cfgC1w.shockYear = some 3 ∧
    shockSpec cfgC1w = some
      ((min (totalPeriodsOf cfgC1w : ℤ)
        (max 1 (⌊(3 : ℝ)⌋ * (periodsPerYearOf cfgC1w : ℤ)))).toNat, -30) :=
  ⟨rfl, rfl, (C1_shock_fires_once cfgC1w (-30) 3 rfl rfl).1⟩

/-- Counterexample configuration for C1: a fractional shock year 1/10
inside a horizon of 10/52 years (10 weekly periods). -/
noncomputable def cfgC1x : CParams :=
  ⟨100, 10 / 52, 0, 0, some (-50), some (1 / 10), "weekly", .jnum 3⟩

/-- Period count of the C1 counterexample configuration. -/
lemma cfgC1x_N : totalPeriodsOf cfgC1x = 10 := by
  have h : ⌊cfgC1x.years * ((periodsPerYearOf cfgC1x : ℕ) : ℝ)⌋ = 10 := by
    show ⌊(10 / 52 : ℝ) * ((52 : ℕ) : ℝ)⌋ = 10
    push_cast
    norm_num
  rw [totalPeriodsOf, h]
  rfl

/-- Shock setup of the C1 counterexample configuration: the code fires the
shock at period 1, because floor(0.1) = 0 is clamped up to 1. -/
lemma cfgC1x_shock : shockSpec cfgC1x = some (1, -50) := by
  have h : ⌊(1 / 10 : ℝ)⌋ = 0 := by norm_num
  simp only [shockSpec, show cfgC1x.shockPct = some (-50 : ℝ) from rfl,
    show cfgC1x.shockYear = some (1 / 10 : ℝ) from rfl, h, cfgC1x_N]
  norm_num

/-- C1 counterexample: with shockAtYear = 1/10 and 52 periods per year the
claimed formula round(shockAtYear times periodsPerYear) gives period 5,
but the code computes floor(shockAtYear) times periodsPerYear, clamped to
1, and the series shows the drop landing at period 1: the first value is
50 (= 100 halved) and the fifth is 450, untouched by the shock. -/
theorem C1_counterexample :
    shockSpec cfgC1x = some (1, -50) ∧
    min ((totalPeriodsOf cfgC1x : ℤ))
      (max 1 (round (cfgC1x.shockYear.getD 0 * ((periodsPerYearOf cfgC1x : ℕ) : ℝ)))) = 5 ∧
    (project cfgC1x).series.getD 0 0 = 50 ∧
    (project cfgC1x).series.getD 4 0 = 450 ∧
    (1 : ℤ) ≠ 5 := by
  have hrate : periodRate cfgC1x = 0 := periodRate_zero cfgC1x rfl
  have hfee : periodFeeFactor cfgC1x = 1 := periodFeeFactor_zero cfgC1x rfl
  have v1 : valSeq 100 0 1 (some (1, -50)) 1 = 50 := by
    show valSeq 100 0 1 (some (1, -50)) (0 + 1) = 50
    rw [valSeq, show valSeq (100 : ℝ) 0 1 (some (1, -50)) 0 = 0 from rfl]
    norm_num [shockHit, shockPctOf]
  have v2 : valSeq 100 0 1 (some (1, -50)) 2 = 150 := by
    show valSeq 100 0 1 (some (1, -50)) (1 + 1) = 150
    rw [valSeq, v1]
    norm_num [shockHit, shockPctOf]
  have v3 : valSeq 100 0 1 (some (1, -50)) 3 = 250 := by
    show valSeq 100 0 1 (some (1, -50)) (2 + 1) = 250
    rw [valSeq, v2]
    norm_num [shockHit, shockPctOf]
  have v4 : valSeq 100 0 1 (some (1, -50)) 4 = 350 := by
    show valSeq 100 0 1 (some (1, -50)) (3 + 1) = 350
    rw [valSeq, v3]
    norm_num [shockHit, shockPctOf]
  have v5 : valSeq 100 0 1 (some (1, -50)) 5 = 450 := by
    show valSeq 100 0 1 (some (1, -50)) (4 + 1) = 450
    rw [valSeq, v4]
    norm_num [shockHit, shockPctOf]
  refine ⟨cfgC1x_shock, ?_, ?_, ?_, by norm_num⟩
  · rw [cfgC1x_N, show cfgC1x.shockYear.getD 0 = (1 / 10 : ℝ) from rfl,
      show periodsPerYearOf cfgC1x = 52 from rfl]
    have hr : round ((1 / 10 : ℝ) * ((52 : ℕ) : ℝ)) = 5 := by
      push_cast
      norm_num [round_eq]
    rw [hr]
    norm_num
  · rw [project_series, getD_range_map _ _ _ (by rw [cfgC1x_N]; norm_num),
      show cfgC1x.weeklyAmount = (100 : ℝ) from rfl, hrate, hfee, cfgC1x_shock]
    exact v1
  · rw [project_series, getD_range_map _ _ _ (by rw [cfgC1x_N]; norm_num),
      show cfgC1x.weeklyAmount = (100 : ℝ) from rfl, hrate, hfee, cfgC1x_shock]
    exact v5

/-- C2 (amended): the recovery field is absent when no shock is
configured, when the horizon has no periods, or when the value never
climbs back to the recorded pre-shock target within the horizon; when
present it equals s times (t - T + 1), where T is the shock period, t is
the first period whose closing value reaches or exceeds the pre-shock
target (counting the shock period itself as the first), and s is 1 for
weekly runs and 4 for monthly runs (the engine reports monthly recovery
in approximate weeks).  The field is recorded at that first period and
never overwritten, and it is always positive. -/
theorem C2_recovery_semantics (c : CParams) :
    (shockSpec c = none → (project c).recoveryWeeks = none) ∧
    (totalPeriodsOf c = 0 → (project c).recoveryWeeks = none) ∧
    (∀ T sp, shockSpec c = some (T, sp) → 1 ≤ T →
      ((project c).recoveryWeeks = none →
        ∀ t, T ≤ t → t ≤ totalPeriodsOf c →
          (project c).series.getD (t - 1) 0 <
            preShockTarget c.weeklyAmount (periodRate c) (periodFeeFactor c)
              (shockSpec c) T) ∧
      (∀ w, (project c).recoveryWeeks = some w →
        1 ≤ w ∧
        ∃ t, T ≤ t ∧ t ≤ totalPeriodsOf c ∧
          preShockTarget c.weeklyAmount (periodRate c) (periodFeeFactor c)
              (shockSpec c) T ≤ (project c).series.getD (t - 1) 0 ∧
          (∀ u, T ≤ u → u < t →
            (project c).series.getD (u - 1) 0 <
              preShockTarget c.weeklyAmount (periodRate c) (periodFeeFactor c)
                (shockSpec c) T) ∧
          w = (if c.frequency = "monthly" then 4 else 1) * (t - T + 1))) := by
  refine ⟨?_, ?_, ?_⟩
  · intro h
    rw [project_recoveryWeeks, h]
    rw [(iterSim_noShock c.weeklyAmount (periodRate c) (periodFeeFactor c)
      (periodsPerYearOf c) (totalPeriodsOf c)).2.2]
    rfl
  · intro h
    rw [project_recoveryWeeks, h]
    rfl
  · intro T sp hss hT
    obtain ⟨-, -, hnone, hsome⟩ := iterSim_recovery c.weeklyAmount (periodRate c)
      (periodFeeFactor c) sp T (periodsPerYearOf c) hT (totalPeriodsOf c)
    have hser : ∀ t, 1 ≤ t → t ≤ totalPeriodsOf c →
        (project c).series.getD (t - 1) 0 = valSeq c.weeklyAmount (periodRate c)
          (periodFeeFactor c) (some (T, sp)) t := by
      intro t h1 h2
      rw [project_series, getD_range_map _ _ _ (by omega), hss]
      congr 1
      omega
    constructor
    · intro hw t ht1 ht2
      rw [hss]
      rw [project_recoveryWeeks, hss] at hw
      have hrec : (iterSim c.weeklyAmount (periodRate c) (periodFeeFactor c)
          (some (T, sp)) (periodsPerYearOf c) (totalPeriodsOf c)).recoveryPeriods = none := by
        simpa using hw
      rw [hser t (hT.trans ht1) ht2]
      exact (hnone hrec).2 t ht1 ht2
    · intro w hw
      rw [hss]
      rw [project_recoveryWeeks, hss] at hw
      rcases hrp : (iterSim c.weeklyAmount (periodRate c) (periodFeeFactor c)
          (some (T, sp)) (periodsPerYearOf c) (totalPeriodsOf c)).recoveryPeriods with _ | k
      · rw [hrp] at hw
        cases hw
      · rw [hrp] at hw
        simp only [Option.map_some', Option.some.injEq] at hw
        obtain ⟨-, t, ht1, ht2, ht3, ht4, ht5⟩ := hsome k hrp
        refine ⟨?_, t, ht1, ht2, ?_, ?_, ?_⟩
        · by_cases hm : c.frequency = "monthly"
          · rw [if_pos hm] at hw
            omega
          · rw [if_neg hm] at hw
            omega
        · rw [hser t (hT.trans ht1) ht2]
          exact ht4
        · intro u hu1 hu2
          rw [hser u (hT.trans hu1) (by omega)]
          exact ht5 u hu1 hu2
        · by_cases hm : c.frequency = "monthly"
          · rw [if_pos hm] at hw ⊢
            omega
          · rw [if_neg hm] at hw ⊢
            omega

/-- Counterexample configuration for C2: a monthly run over 2 periods with
a -50 percent shock at period 1 and zero growth. -/
noncomputable def cfgC2x : CParams :=
  ⟨100, 1 / 6, 0, 0, some (-50), some 0, "monthly", .jnum 3⟩

/-- Period count of the C2 counterexample configuration. -/
lemma cfgC2x_N : totalPeriodsOf cfgC2x = 2 := by
  have h : ⌊cfgC2x.years * ((periodsPerYearOf cfgC2x : ℕ) : ℝ)⌋ = 2 := by
    show ⌊(1 / 6 : ℝ) * ((12 : ℕ) : ℝ)⌋ = 2
    push_cast
    norm_num
  rw [totalPeriodsOf, h]
  rfl

/-- Shock setup of the C2 counterexample configuration. -/
lemma cfgC2x_shock : shockSpec cfgC2x = some (1, -50) := by
  have h : ⌊(0 : ℝ)⌋ = 0 := by norm_num
  simp only [shockSpec, show cfgC2x.shockPct = some (-50 : ℝ) from rfl,
    show cfgC2x.shockYear = some (0 : ℝ) from rfl, h, cfgC2x_N]
  norm_num

/-- The recovery field of the C2 counterexample run: the value drops to 50
at the shock period, recovers to 150 at the second month (counter 2), and
the engine reports 2 times 4 = 8. -/
lemma cfgC2x_recovery : (project cfgC2x).recoveryWeeks = some 8 := by
  have hrate : periodRate cfgC2x = 0 := periodRate_zero cfgC2x rfl
  have hfee : periodFeeFactor cfgC2x = 1 := periodFeeFactor_zero cfgC2x rfl
  have v1 : valSeq 100 0 1 (some (1, -50)) 1 = 50 := by
    show valSeq 100 0 1 (some (1, -50)) (0 + 1) = 50
    rw [valSeq, show valSeq (100 : ℝ) 0 1 (some (1, -50)) 0 = 0 from rfl]
    norm_num [shockHit, shockPctOf]
  have v2 : valSeq 100 0 1 (some (1, -50)) 2 = 150 := by
    show valSeq 100 0 1 (some (1, -50)) (1 + 1) = 150
    rw [valSeq, v1]
    norm_num [shockHit, shockPctOf]
  have hP : preShockTarget 100 0 1 (some (1, -50)) 1 = 100 := by
    rw [preShockTarget, show (1 : ℕ) - 1 = 0 from rfl,
      show peakSeq (100 : ℝ) 0 1 (some (1, -50)) 0 = 0 from rfl,
      show valSeq (100 : ℝ) 0 1 (some (1, -50)) 0 = 0 from rfl]
    norm_num
  obtain ⟨-, -, hnone, hsome⟩ := iterSim_recovery 100 0 1 (-50) 1 12 (le_refl 1) 2
  rcases hrp : (iterSim 100 0 1 (some (1, -50)) 12 2).recoveryPeriods with _ | k
  · exfalso
    obtain ⟨-, hall⟩ := hnone hrp
    have h2 := hall 2 (by norm_num) (le_refl 2)
    rw [v2, hP] at h2
    linarith
  · obtain ⟨-, t, ht1, ht2, ht3, ht4, ht5⟩ := hsome k hrp
    have htt : t = 2 := by
      rcases (by omega : t = 1 ∨ t = 2) with h | h
      · subst h
        rw [v1, hP] at ht4
        linarith
      · exact h
    subst htt
    have hk2 : k = 2 := by omega
    subst hk2
    rw [project_recoveryWeeks, show cfgC2x.weeklyAmount = (100 : ℝ) from rfl, hrate,
      hfee, cfgC2x_shock, show periodsPerYearOf cfgC2x = 12 from rfl, cfgC2x_N, hrp]
    simp [show cfgC2x.frequency = "monthly" from rfl]

/-- C2 counterexample: the monthly run recovers after 2 of its own periods
(months) but the result field holds 8, which even exceeds the total
period count of the run, so the field is not a period count in the
simulation unit. -/
theorem C2_counterexample : (project cfgC2x).recoveryWeeks = some 8 ∧
    (project cfgC2x).series.length = 2 ∧ ¬ (8 ≤ 2) := by
  refine ⟨cfgC2x_recovery, ?_, by norm_num⟩
  rw [project_series, cfgC2x_N]
  simp

/-- C2 witness: the recovery-semantics theorem applied at the concrete
monthly run, instantiating the present-field clause. -/
theorem C2_witness : shockSpec cfgC2x = some (1, -50) ∧
    (project cfgC2x).recoveryWeeks = some 8 ∧
    (1 ≤ 8 ∧
      ∃ t, 1 ≤ t ∧ t ≤ totalPeriodsOf cfgC2x ∧
        preShockTarget cfgC2x.weeklyAmount (periodRate cfgC2x) (periodFeeFactor cfgC2x)
            (shockSpec cfgC2x) 1 ≤ (project cfgC2x).series.getD (t - 1) 0 ∧
        (∀ u, 1 ≤ u → u < t →
          (project cfgC2x).series.getD (u - 1) 0 <
            preShockTarget cfgC2x.weeklyAmount (periodRate cfgC2x) (periodFeeFactor cfgC2x)
              (shockSpec cfgC2x) 1) ∧
        8 = (if cfgC2x.frequency = "monthly" then 4 else 1) * (t - 1 + 1)) :=
  ⟨cfgC2x_shock, cfgC2x_recovery,
    ((C2_recovery_semantics cfgC2x).2.2 1 (-50) cfgC2x_shock (le_refl 1)).2 8 cfgC2x_recovery⟩

/-- C4 (amended): normalize never fails, and for every field except
inflationPct a non-finite input is replaced by the documented default
before clamping and the output lands in the documented range; the shock
pair is all-or-nothing with both components in range; inflationPct is
carried through the DEFAULTS merge unchanged, neither replaced on
non-finite input nor clamped into the documented [0, 20] range. -/
theorem C4_normalize_fields (p : RawParams) :
    (0 ≤ (clampParams p).weeklyAmount ∧ (clampParams p).weeklyAmount ≤ 1000000) ∧
    (0 ≤ (clampParams p).years ∧ (clampParams p).years ≤ 50) ∧
    (-100 ≤ (clampParams p).annualReturnPct ∧ (clampParams p).annualReturnPct ≤ 200) ∧
    (0 ≤ (clampParams p).annualFeePct ∧ (clampParams p).annualFeePct ≤ 5) ∧
    (p.weeklyAmount = some .jnonfinite → (clampParams p).weeklyAmount = 100) ∧
    (p.years = some .jnonfinite → (clampParams p).years = 10) ∧
    (p.annualReturnPct = some .jnonfinite → (clampParams p).annualReturnPct = 7) ∧
    (p.annualFeePct = some .jnonfinite → (clampParams p).annualFeePct = 0) ∧
    (∀ sp ∈ (clampParams p).shockPct, -95 ≤ sp ∧ sp ≤ 0) ∧
    (∀ sy ∈ (clampParams p).shockYear, 0 ≤ sy ∧ sy ≤ (clampParams p).years) ∧
    ((clampParams p).shockPct = none ↔ (clampParams p).shockYear = none) ∧
    (clampParams p).inflationPct = p.inflationPct.getD (.jnum 3) := by
  have hyears : 0 ≤ (clampParams p).years ∧ (clampParams p).years ≤ 50 :=
    clamp_mem _ 0 50 (by norm_num)
  have hspdef : (clampParams p).shockPct =
      if (!(p.shockPct.getD .jnull).isNull && !(p.shockYear.getD .jnull).isNull) = true
      then some (clamp (toNum (p.shockPct.getD .jnull) (-30)) (-95) 0) else none := rfl
  have hsydef : (clampParams p).shockYear =
      if (!(p.shockPct.getD .jnull).isNull && !(p.shockYear.getD .jnull).isNull) = true
      then some (clamp (toNum (p.shockYear.getD .jnull) 3) 0 (clampParams p).years)
      else none := rfl
  refine ⟨clamp_mem _ 0 1000000 (by norm_num), hyears,
    clamp_mem _ (-100) 200 (by norm_num), clamp_mem _ 0 5 (by norm_num),
    ?_, ?_, ?_, ?_, ?_, ?_, ?_, rfl⟩
  · intro h
    show clamp (toNum (p.weeklyAmount.getD (.jnum 100)) 100) 0 1000000 = 100
    rw [h]
    show clamp 100 0 1000000 = 100
    rw [clamp]
    norm_num
  · intro h
    show clamp (toNum (p.years.getD (.jnum 10)) 10) 0 50 = 10
    rw [h]
    show clamp 10 0 50 = 10
    rw [clamp]
    norm_num
  · intro h
    show clamp (toNum (p.annualReturnPct.getD (.jnum 7)) 7) (-100) 200 = 7
    rw [h]
    show clamp 7 (-100) 200 = 7
    rw [clamp]
    norm_num
  · intro h
    show clamp (toNum (p.annualFeePct.getD (.jnum 0)) 0) 0 5 = 0
    rw [h]
    show clamp 0 0 5 = 0
    rw [clamp]
    norm_num
  · intro sp hsp
    rw [hspdef] at hsp
    cases hb : (!(p.shockPct.getD .jnull).isNull && !(p.shockYear.getD .jnull).isNull)
    · rw [if_neg (by simp [hb])] at hsp
      cases hsp
    · rw [if_pos hb] at hsp
      obtain rfl := Option.some.inj hsp
      exact clamp_mem _ (-95) 0 (by norm_num)
  · intro sy hsy
    rw [hsydef] at hsy
    cases hb : (!(p.shockPct.getD .jnull).isNull && !(p.shockYear.getD .jnull).isNull)
    · rw [if_neg (by simp [hb])] at hsy
      cases hsy
    · rw [if_pos hb] at hsy
      obtain rfl := Option.some.inj hsy
      exact clamp_mem _ 0 (clampParams p).years hyears.1
  · rw [hspdef, hsydef]
    cases hb : (!(p.shockPct.getD .jnull).isNull && !(p.shockYear.getD .jnull).isNull)
    · simp
    · simp

/-- Counterexample raw bundle for C4: an in-range check on inflationPct. -/
def rawC4x : RawParams := { inflationPct := some (.jnum 25) }

/-- C4 counterexample: an inflationPct of 25 passes through clampParams
untouched even though the documented range tops out at 20, so the field
is neither defaulted nor clamped. -/
theorem C4_counterexample : (clampParams rawC4x).inflationPct = JVal.jnum 25 ∧
    ¬ ((25 : ℝ) ≤ 20) :=
  ⟨rfl, by norm_num⟩

/-- Witness raw bundle for C4: a non-finite weeklyAmount. -/
def rawC4w : RawParams := { weeklyAmount := some .jnonfinite }

/-- C4 witness: the normalizer theorem applied at a concrete raw bundle. -/
theorem C4_witness : rawC4w.weeklyAmount = some JVal.jnonfinite ∧
    (clampParams rawC4w).weeklyAmount = 100 ∧
    (clampParams rawC4w).inflationPct = rawC4w.inflationPct.getD (.jnum 3) := by
  obtain ⟨h1, h2, h3, h4, h5, h6, h7, h8, h9, h10, h11, h12⟩ := C4_normalize_fields rawC4w
  exact ⟨rfl, h5 rfl, h12⟩

end

end DCA
